import Mathlib

/-!
Shallow embedding of the deployment-pipeline repository
(app.py, validator.py, evaluator.py, github_manager.py, code_generator.py)
and proofs about the behaviour its specification claims.

Python values flowing through JSON payloads are modelled by the inductive
type Value; Python dicts are association lists keyed by strings; Python
code that can raise is modelled with Except String; clock reads and
network calls are passed in as explicit parameters.
-/

namespace Deploy

/-- Value models a JSON-decoded Python value as it appears in request
payloads: strings, ints, bools, lists, string-keyed dicts, and None. -/
inductive Value : Type where
  | str (s : String)
  | int (n : Int)
  | bool (b : Bool)
  | list (xs : List Value)
  | dict (kvs : List (String × Value))
  | none

/-- lookupKey models Python dict access d[k] / membership k in d over an
association list (first binding wins, as dict keys are unique). -/
def lookupKey {α : Type} (k : String) : List (String × α) → Option α
  | [] => Option.none
  | (k2, v) :: rest => if k2 = k then Option.some v else lookupKey k rest

/-- pyJoin models Python str.join: sep.join(l). -/
def pyJoin (sep : String) : List String → String
  | [] => ""
  | [x] => x
  | x :: xs => x ++ sep ++ pyJoin sep xs

/-- InfixOf needle hay holds when needle occurs contiguously inside hay. -/
def InfixOf (needle hay : String) : Prop :=
  needle.toList <:+: hay.toList

/-- splitChar models Python str.split with a single-character separator:
split into the list of chunks between occurrences of the separator. -/
def splitChar (c : Char) : List Char → List (List Char)
  | [] => [[]]
  | x :: xs =>
    if x = c then [] :: splitChar c xs
    else
      match splitChar c xs with
      | [] => [[x]]
      | g :: gs => (x :: g) :: gs

/-- pyStartsWith models Python str.startswith. -/
def pyStartsWith (pre s : String) : Bool :=
  pre.toList.isPrefixOf s.toList

/-- pyStrEq needle v models the Python comparison needle == v where the
left operand is a str: true exactly on an equal str (Python equality
between a str and a value of another type is False). -/
def pyStrEq (needle : String) : Value → Bool
  | Value.str s => s = needle
  | _ => false

namespace Validator

/-- required_fields from validator.py line 18. -/
def required_fields : List String :=
  ["email", "secret", "task", "round", "nonce", "brief", "evaluation_url"]

/-- missingFields models the list comprehension at validator.py line 21:
the required fields absent from the payload, in declaration order. -/
def missingFields (payload : List (String × Value)) : List String :=
  required_fields.filter (fun f => (lookupKey f payload).isNone)

/-- emailCheck models validator.py line 28:
the test (at-sign not in email or dot not in email.split at-sign last).
On a string it is total; on a list or dict the membership test succeeds
but the split attribute access raises; on an int, bool or None the
membership test itself raises TypeError. Errors are Except.error. -/
def emailCheck (email : Value) : Except String Bool :=
  match email with
  | Value.str s =>
    if !(s.toList.contains '@') then Except.ok false
    else Except.ok (((splitChar '@' s.toList).getLastD []).contains '.')
  | Value.list xs =>
    if !(xs.any (pyStrEq "@")) then Except.ok false
    else Except.error "AttributeError: \x27list\x27 object has no attribute \x27split\x27"
  | Value.dict kvs =>
    if !(kvs.any (fun kv => kv.fst = "@")) then Except.ok false
    else Except.error "AttributeError: \x27dict\x27 object has no attribute \x27split\x27"
  | Value.int _ => Except.error "TypeError: argument of type \x27int\x27 is not iterable"
  | Value.bool _ => Except.error "TypeError: argument of type \x27bool\x27 is not iterable"
  | Value.none => Except.error "TypeError: argument of type \x27NoneType\x27 is not iterable"

/-- check_attachments models the loop at validator.py lines 65-69,
returning the first error message, if any. -/
def check_attachments : Nat → List Value → Option String
  | _, [] => Option.none
  | idx, a :: rest =>
    match a with
    | Value.dict kvs =>
      if (lookupKey "name" kvs).isNone || (lookupKey "url" kvs).isNone then
        Option.some ("Attachment " ++ toString idx ++ " must have \x27name\x27 and \x27url\x27 fields")
      else check_attachments (idx + 1) rest
    | _ => Option.some ("Attachment " ++ toString idx ++ " must be a dictionary")

/-- pyIsInstanceInt models Python isinstance(x, int); bool is a subclass
of int in Python, so Value.bool also passes. -/
def pyIsInstanceInt : Value → Bool
  | Value.int _ => true
  | Value.bool _ => true
  | _ => false

/-- pyIntVal gives the integer value of a Value passing pyIsInstanceInt
(Python True is 1, False is 0); other cases are never consulted. -/
def pyIntVal : Value → Int
  | Value.int n => n
  | Value.bool b => if b then 1 else 0
  | _ => 0

/-- pyIsNonEmptyStr models isinstance(x, str) and len(x) greater than 0,
the combined test of validator.py lines 38, 43, 48. -/
def pyIsNonEmptyStr : Value → Bool
  | Value.str s => s.length != 0
  | _ => false

/-- restChecks models validator.py lines 31-72: the checks performed once
the required fields are present and the email format test has passed.
Each branch tests isinstance before touching the value, so this part of
the source is total. -/
def restChecks (payload : List (String × Value)) : Bool × String :=
  let roundv := (lookupKey "round" payload).getD Value.none
  if !(pyIsInstanceInt roundv) || pyIntVal roundv < 1 then
    (false, "Round must be a positive integer")
  else
  let task := (lookupKey "task" payload).getD Value.none
  if !(pyIsNonEmptyStr task) then (false, "Task must be a non-empty string")
  else
  let nonce := (lookupKey "nonce" payload).getD Value.none
  if !(pyIsNonEmptyStr nonce) then (false, "Nonce must be a non-empty string")
  else
  let brief := (lookupKey "brief" payload).getD Value.none
  if !(pyIsNonEmptyStr brief) then (false, "Brief must be a non-empty string")
  else
  let urlOk := match (lookupKey "evaluation_url" payload).getD Value.none with
    | Value.str s => pyStartsWith "http" s
    | _ => false
  if !urlOk then (false, "Evaluation URL must be a valid HTTP(S) URL")
  else
  let checksOk := match lookupKey "checks" payload with
    | Option.none => true
    | Option.some (Value.list _) => true
    | Option.some _ => false
  if !checksOk then (false, "Checks must be a list")
  else
  match lookupKey "attachments" payload with
  | Option.none => (true, "")
  | Option.some (Value.list xs) =>
    match check_attachments 0 xs with
    | Option.some msg => (false, msg)
    | Option.none => (true, "")
  | Option.some _ => (false, "Attachments must be a list")

/-- validate_request models validator.py lines 8-72. It returns the
(is_valid, error_message) pair; a raised exception is Except.error. -/
def validate_request (payload : List (String × Value)) : Except String (Bool × String) :=
  let missing := missingFields payload
  if !missing.isEmpty then
    Except.ok (false, "Missing required fields: " ++ pyJoin ", " missing)
  else
    match emailCheck ((lookupKey "email" payload).getD Value.none) with
    | Except.error e => Except.error e
    | Except.ok false => Except.ok (false, "Invalid email format")
    | Except.ok true => Except.ok (restChecks payload)

/-- verify_secret models validator.py lines 74-97. The expected secret is
a string (os.environ.get defaults an absent variable to the empty
string); the provided value is whatever the payload carried. Python
equality between a non-string and a string is False. -/
def verify_secret (provided_secret : Value) (expected_secret : String) : Bool :=
  if expected_secret = "" then false
  else
    match provided_secret with
    | Value.str s => s = expected_secret
    | _ => false

end Validator

namespace Evaluator

/-- MAX_RETRIES from evaluator.py line 11. -/
def MAX_RETRIES : Nat := 5

/-- RETRY_DELAYS from evaluator.py line 12. -/
def RETRY_DELAYS : List Nat := [1, 2, 4, 8, 16]

/-- CallOutcome models what one requests.post call at evaluator.py line 49
can produce: a delivered response, a timeout, a transport-level request
error, or any other exception. -/
inductive CallOutcome : Type where
  | response (status_code : Nat) (text : String)
  | timeoutErr
  | requestErr (msg : String)
  | otherErr (msg : String)

/-- NotifyResult models the dict returned by notify_evaluation_api:
success carries the response body, failure carries the error string. -/
inductive NotifyResult : Type where
  | success (response : String)
  | failure (error : String)
deriving DecidableEq

/-- NotifyTrace records the observable behaviour of one call to
notify_evaluation_api: the attempt indices made in order, the sleep
durations performed between consecutive attempts in order, and the
returned result. -/
structure NotifyTrace : Type where
  attempts : List Nat
  sleeps : List Nat
  result : NotifyResult
deriving DecidableEq

/-- notifyAux models the loop for attempt in range(MAX_RETRIES) at
evaluator.py lines 47-113, parameterised by the outcome of each network
call. The first argument of the recursion is the current attempt index,
the second the number of loop iterations left. -/
def notifyAux (calls : Nat → CallOutcome) : Nat → Nat → NotifyTrace
  | _, 0 => ⟨[], [], NotifyResult.failure "Failed after maximum retries"⟩
  | attempt, rem + 1 =>
    match calls attempt with
    | CallOutcome.response code text =>
      if code = 200 then ⟨[attempt], [], NotifyResult.success text⟩
      else if attempt < MAX_RETRIES - 1 then
        let rest := notifyAux calls (attempt + 1) rem
        ⟨attempt :: rest.attempts, RETRY_DELAYS.getD attempt 0 :: rest.sleeps, rest.result⟩
      else
        ⟨[attempt], [],
          NotifyResult.failure
            ("Evaluation API returned status " ++ toString code ++ ": " ++ text)⟩
    | CallOutcome.timeoutErr =>
      if attempt < MAX_RETRIES - 1 then
        let rest := notifyAux calls (attempt + 1) rem
        ⟨attempt :: rest.attempts, RETRY_DELAYS.getD attempt 0 :: rest.sleeps, rest.result⟩
      else ⟨[attempt], [], NotifyResult.failure "Request timeout after multiple retries"⟩
    | CallOutcome.requestErr msg =>
      if attempt < MAX_RETRIES - 1 then
        let rest := notifyAux calls (attempt + 1) rem
        ⟨attempt :: rest.attempts, RETRY_DELAYS.getD attempt 0 :: rest.sleeps, rest.result⟩
      else ⟨[attempt], [], NotifyResult.failure ("Request failed: " ++ msg)⟩
    | CallOutcome.otherErr msg =>
      if attempt < MAX_RETRIES - 1 then
        let rest := notifyAux calls (attempt + 1) rem
        ⟨attempt :: rest.attempts, RETRY_DELAYS.getD attempt 0 :: rest.sleeps, rest.result⟩
      else ⟨[attempt], [], NotifyResult.failure ("Unexpected error: " ++ msg)⟩

/-- notify_evaluation_api models evaluator.py lines 14-118 for a fixed
payload, parameterised by the outcome of the network call made on each
attempt. -/
def notify_evaluation_api (calls : Nat → CallOutcome) : NotifyTrace :=
  notifyAux calls 0 MAX_RETRIES

end Evaluator

namespace GithubManager

/-- stripHyphens models the Python str.strip with argument hyphen at
github_manager.py line 98: remove leading and trailing hyphens. -/
def stripHyphens (l : List Char) : List Char :=
  ((l.dropWhile (fun c => c = '-')).reverse.dropWhile (fun c => c = '-')).reverse

/-- sanitize_repo_name models github_manager.py lines 83-108. The two
sequential single-character replaces are one character map; the isalnum
test is modelled on the ASCII range; the clock read used by the
empty-name fallback is passed in as the formatted timestamp string now. -/
def sanitize_repo_name (now : String) (task_name : String) : String :=
  let repl := task_name.toList.map
    (fun c => if c = ' ' then '-' else if c = '_' then '-' else c)
  let kept := repl.filter (fun c => c.isAlphanum || c = '-')
  let stripped := stripHyphens kept
  let capped := if stripped.length > 100 then stripped.take 100 else stripped
  if capped.isEmpty then "task-" ++ now else String.mk capped

/-- repo_description models the description argument built at
github_manager.py line 53: the f-string embedding the first 100
characters of the brief, sent verbatim to the repository-creation call
(no sanitisation is applied in create_and_deploy_repo, and no
sanitize_description function exists in github_manager.py even though
test_control_chars_fix.py imports one). -/
def repo_description (brief : String) : String :=
  "Auto-generated application: " ++ String.mk (brief.toList.take 100)

/-- checksText models github_manager.py line 271. -/
def checksText (checks : List String) : String :=
  if checks.isEmpty then "No specific checks."
  else pyJoin "\n" (checks.map (fun c => "- " ++ c))

/-- generate_readme models github_manager.py lines 260-340; the clock
reads are passed in as year and timestamp. -/
def generate_readme (brief : String) (checks : List String) (year : Int) (timestamp : String) : String :=
  "# Generated Application\n\n## Summary\nThis application was automatically generated and deployed using an LLM-based code deployment system.\n\n**Brief:** "
  ++ brief
  ++ "\n\n## Features\nThis application implements the following requirements:\n"
  ++ checksText checks
  ++ "\n\n## Setup\nNo setup required! This is a static web application.\n\n## Usage\n1. Visit the GitHub Pages URL for this repository\n2. The application will load automatically in your browser\n3. Follow any on-screen instructions\n\n## Technology Stack\n- **Frontend:** HTML5, CSS3, JavaScript\n- **Styling:** Bootstrap 5\n- **Deployment:** GitHub Pages\n\n## Code Explanation\nThis application was generated based on the provided brief and requirements. The code is structured as follows:\n\n- **index.html:** Main application file containing HTML structure, embedded styles, and JavaScript logic\n- **README.md:** This file, containing project documentation\n- **LICENSE:** MIT License file\n\nThe application uses modern web technologies and follows best practices for:\n- Responsive design\n- Cross-browser compatibility\n- User experience\n- Code organization and readability\n\n## Deployment\nThis application is automatically deployed to GitHub Pages. Any commits to the main branch will trigger a redeployment.\n\n## License\nMIT License\n\nCopyright (c) "
  ++ toString year
  ++ "\n\nPermission is hereby granted, free of charge, to any person obtaining a copy\nof this software and associated documentation files (the \"Software\"), to deal\nin the Software without restriction, including without limitation the rights\nto use, copy, modify, merge, publish, distribute, sublicense, and/or sell\ncopies of the Software, and to permit persons to whom the Software is\nfurnished to do so, subject to the following conditions:\n\nThe above copyright notice and this permission notice shall be included in all\ncopies or substantial portions of the Software.\n\nTHE SOFTWARE IS PROVIDED \"AS IS\", WITHOUT WARRANTY OF ANY KIND, EXPRESS OR\nIMPLIED, INCLUDING BUT NOT LIMITED TO THE WARRANTIES OF MERCHANTABILITY,\nFITNESS FOR A PARTICULAR PURPOSE AND NONINFRINGEMENT. IN NO EVENT SHALL THE\nAUTHORS OR COPYRIGHT HOLDERS BE LIABLE FOR ANY CLAIM, DAMAGES OR OTHER\nLIABILITY, WHETHER IN AN ACTION OF CONTRACT, TORT OR OTHERWISE, ARISING FROM,\nOUT OF OR IN CONNECTION WITH THE SOFTWARE OR THE USE OR OTHER DEALINGS IN THE\nSOFTWARE.\n\n---\n\n*Generated by LLM Code Deployment System on "
  ++ timestamp
  ++ " UTC*\n"

/-- readme_content models the README selection at github_manager.py line
156: app_code.get with the generated default as the dict.get default,
which is used only when the key README.md is absent, not when its value
is the empty string. -/
def readme_content (app_code : List (String × String)) (brief : String) (checks : List String) (year : Int) (timestamp : String) : String :=
  (lookupKey "README.md" app_code).getD (generate_readme brief checks year timestamp)

end GithubManager

namespace CodeGenerator

/-- Stdlib packages the two Python standard-library decoders used by
decode_attachment (base64.b64decode and bytes.decode with utf-8), each
modelled as a function that may fail. -/
structure Stdlib : Type where
  b64decode : String → Except String (List Nat)
  utf8decode : List Nat → Except String String

/-- Content models the content field of a decoded attachment: raw bytes,
or text for textual MIME types (code_generator.py lines 37-39). -/
inductive Content : Type where
  | bytes (b : List Nat)
  | text (s : String)

/-- Decoded models the dict returned by decode_attachment on success
(code_generator.py lines 41-45). -/
structure Decoded : Type where
  name : Value
  mime_type : String
  content : Content

/-- splitFirst models Python str.split(sep, 1) unpacked into two names:
it fails (ValueError, caught by the caller) when the separator is
absent. -/
def splitFirst (c : Char) : List Char → Option (List Char × List Char)
  | [] => Option.none
  | x :: xs =>
    if x = c then Option.some ([], xs)
    else
      match splitFirst c xs with
      | Option.none => Option.none
      | Option.some (a, b) => Option.some (x :: a, b)

/-- decode_attachment models code_generator.py lines 17-48. Every raised
exception inside the try block, and the fall-through when the url does
not start with data:, produce None. A non-dict attachment raises on the
subscript and is likewise caught. -/
def decode_attachment (std : Stdlib) (attachment : Value) : Option Decoded :=
  match attachment with
  | Value.dict kvs =>
    match lookupKey "url" kvs with
    | Option.none => Option.none
    | Option.some u =>
      match u with
      | Value.str url =>
        if pyStartsWith "data:" url then
          match splitFirst ',' url.toList with
          | Option.none => Option.none
          | Option.some (headerCs, encodedCs) =>
            let encoded := String.mk encodedCs
            let mime := String.mk ((splitChar ';' ((splitChar ':' headerCs).getD 1 [])).headD [])
            match std.b64decode encoded with
            | Except.error _ => Option.none
            | Except.ok bs =>
              if pyStartsWith "text/" mime || mime = "application/json"
                  || mime = "application/javascript" then
                match std.utf8decode bs with
                | Except.error _ => Option.none
                | Except.ok s =>
                  match lookupKey "name" kvs with
                  | Option.none => Option.none
                  | Option.some n => Option.some ⟨n, mime, Content.text s⟩
              else
                match lookupKey "name" kvs with
                | Option.none => Option.none
                | Option.some n => Option.some ⟨n, mime, Content.bytes bs⟩
        else Option.none
      | _ => Option.none
  | _ => Option.none

/-- decode_loop models the loop at code_generator.py lines 65-69: decode
each attachment and append the result exactly when it is truthy (a
successful decode is a three-key dict, hence truthy; None is falsy). -/
def decode_loop (std : Stdlib) : List Value → List Decoded
  | [] => []
  | a :: rest =>
    match decode_attachment std a with
    | Option.some d => d :: decode_loop std rest
    | Option.none => decode_loop std rest

/-- html_template models the f-string at code_generator.py lines 299-344
with the brief interpolated. -/
def html_template (brief : String) : String :=
  "<!DOCTYPE html>\n<html lang=\"en\">\n<head>\n    <meta charset=\"UTF-8\">\n    <meta name=\"viewport\" content=\"width=device-width, initial-scale=1.0\">\n    <title>Generated Application</title>\n    <link href=\"https://cdn.jsdelivr.net/npm/bootstrap@5.3.0/dist/css/bootstrap.min.css\" rel=\"stylesheet\">\n    <style>\n        body \x7b\n            padding: 20px;\n            background: linear-gradient(135deg, #667eea 0%, #764ba2 100%);\n            min-height: 100vh;\n        \x7d\n        .container \x7b\n            background: white;\n            border-radius: 10px;\n            padding: 30px;\n            box-shadow: 0 10px 40px rgba(0,0,0,0.2);\n            margin-top: 50px;\n        \x7d\n        .app-title \x7b\n            color: #667eea;\n            margin-bottom: 30px;\n        \x7d\n    </style>\n</head>\n<body>\n    <div class=\"container\">\n        <h1 class=\"app-title\">Generated Application</h1>\n        <div class=\"alert alert-info\">\n            <h5>Brief:</h5>\n            <p>"
  ++ brief
  ++ "</p>\n        </div>\n\n        <div id=\"app-content\">\n            <p class=\"text-muted\">Application implementation goes here.</p>\n        </div>\n    </div>\n\n    <script src=\"https://cdn.jsdelivr.net/npm/bootstrap@5.3.0/dist/js/bootstrap.bundle.min.js\"></script>\n    <script>\n        // Application logic\n        console.log(\x27Application initialized\x27);\n    </script>\n</body>\n</html>"

/-- requirementsText models the conditional join inside the readme
f-string at code_generator.py line 354. -/
def requirementsText (checks : List String) : String :=
  if checks.isEmpty then "No specific checks provided."
  else pyJoin "\n" (checks.map (fun c => "- " ++ c))

/-- readme_template models the f-string at code_generator.py lines
346-367 with the brief and the checks interpolated. -/
def readme_template (brief : String) (checks : List String) : String :=
  "# Generated Application\n\n## Overview\nThis application was automatically generated based on the following brief:\n\n"
  ++ brief
  ++ "\n\n## Requirements\n"
  ++ requirementsText checks
  ++ "\n\n## Usage\n1. Open `index.html` in a web browser\n2. The application will load and execute automatically\n\n## Technical Details\n- Built with HTML5, CSS3, and JavaScript\n- Uses Bootstrap 5 for styling\n- Responsive design for all devices\n\n## License\nMIT License\n"

/-- generate_template_code models code_generator.py lines 284-372; the
attachments argument is accepted and ignored exactly as in the source. -/
def generate_template_code (brief : String) (checks : List String) (_attachments : List Decoded) : List (String × String) :=
  [("index.html", html_template brief), ("README.md", readme_template brief checks)]

/-- ApiConfig models the three credential environment variables read at
code_generator.py lines 13-15 (os.environ.get defaults to the empty
string). -/
structure ApiConfig : Type where
  aipipe_key : String
  anthropic_key : String
  openai_key : String

/-- Backend names the three generation backends of code_generator.py. -/
inductive Backend : Type where
  | aipipe
  | anthropic
  | openai
deriving DecidableEq

/-- chosen_backend models the credential priority chain at
code_generator.py lines 76-84: a key is truthy when non-empty. -/
def chosen_backend (cfg : ApiConfig) : Option Backend :=
  if cfg.aipipe_key != "" then Option.some Backend.aipipe
  else if cfg.anthropic_key != "" then Option.some Backend.anthropic
  else if cfg.openai_key != "" then Option.some Backend.openai
  else Option.none

/-- generate_app_code models code_generator.py lines 50-94. The network
behaviour of the chosen backend is the oracle backendResult: ok is the
parsed code dict it returned, error is any raised exception, which the
except block at lines 91-94 turns into the template fallback. -/
def generate_app_code (cfg : ApiConfig) (backendResult : Backend → Except String (List (String × String))) (std : Stdlib) (brief : String) (checks : List String) (attachments : List Value) : List (String × String) :=
  let decoded := decode_loop std attachments
  match chosen_backend cfg with
  | Option.none => generate_template_code brief checks decoded
  | Option.some b =>
    match backendResult b with
    | Except.ok code => code
    | Except.error _ => generate_template_code brief checks decoded

end CodeGenerator

namespace App

/-- RepoInfo models the dict returned by create_and_deploy_repo
(github_manager.py lines 70-74). -/
structure RepoInfo : Type where
  repo_url : String
  commit_sha : String
  pages_url : String

/-- HttpReply models the (jsonify body, status code) pair returned by the
deploy endpoint; body values in app.py are all strings. -/
structure HttpReply : Type where
  status : Nat
  body : List (String × String)

/-- deploy models app.py lines 36-125: the request handler around the
pipeline. The payload is None when request.get_json produced nothing.
The outcome of create_and_deploy_repo is the oracle publish (error is
any raised exception); the outcome of notify_evaluation_api is the
oracle notify, a function of the publish result it is called with. -/
def deploy (studentSecret : String) (payload? : Option (List (String × Value))) (publish : Except String RepoInfo) (notify : RepoInfo → Evaluator.NotifyResult) : HttpReply :=
  match payload? with
  | Option.none => ⟨400, [("error", "No JSON payload provided")]⟩
  | Option.some payload =>
    match Validator.validate_request payload with
    | Except.error e => ⟨500, [("error", "Internal server error"), ("message", e)]⟩
    | Except.ok (false, msg) => ⟨400, [("error", msg)]⟩
    | Except.ok (true, _) =>
      if !(Validator.verify_secret ((lookupKey "secret" payload).getD (Value.str "")) studentSecret) then
        ⟨403, [("error", "Invalid secret")]⟩
      else
        match publish with
        | Except.error e => ⟨500, [("error", "Internal server error"), ("message", e)]⟩
        | Except.ok info =>
          match notify info with
          | Evaluator.NotifyResult.success _ =>
            ⟨200,
              [("status", "success"),
               ("message", "Application deployed successfully"),
               ("repo_url", info.repo_url),
               ("pages_url", info.pages_url),
               ("commit_sha", info.commit_sha)]⟩
          | Evaluator.NotifyResult.failure err =>
            ⟨200,
              [("status", "partial_success"),
               ("message", "App deployed but evaluation notification failed"),
               ("repo_url", info.repo_url),
               ("pages_url", info.pages_url),
               ("error", err)]⟩

end App

/-- examplePayload is a fully valid request payload, used to instantiate
hypothesis-bearing theorems at a concrete input. -/
def examplePayload : List (String × Value) :=
  [("email", Value.str "a@b.c"), ("secret", Value.str "s"), ("task", Value.str "t"),
   ("round", Value.int 1), ("nonce", Value.str "n"), ("brief", Value.str "b"),
   ("evaluation_url", Value.str "http://x")]

/-- examplePayloadMissing is a payload missing six of the seven required
fields. -/
def examplePayloadMissing : List (String × Value) :=
  [("email", Value.str "x")]

/-- examplePayloadIntEmail is a payload with every required field present
but whose email value is the integer 5. -/
def examplePayloadIntEmail : List (String × Value) :=
  [("email", Value.int 5), ("secret", Value.str "s"), ("task", Value.str "t"),
   ("round", Value.int 1), ("nonce", Value.str "n"), ("brief", Value.str "b"),
   ("evaluation_url", Value.str "http://x")]

/-- exampleBadRound is a payload with a string email whose round value is
zero, hence rejected by validation. -/
def exampleBadRound : List (String × Value) :=
  [("email", Value.str "a@b.c"), ("secret", Value.str "s"), ("task", Value.str "t"),
   ("round", Value.int 0), ("nonce", Value.str "n"), ("brief", Value.str "b"),
   ("evaluation_url", Value.str "http://x")]

/-- longTaskName is a 101-character task name: 99 letters a, a hyphen,
and a final letter a. -/
def longTaskName : String :=
  String.mk (List.replicate 99 'a') ++ "-a"

/-- exampleStdlibFail is a standard-library model whose base64 decoder
always fails. -/
def exampleStdlibFail : CodeGenerator.Stdlib :=
  ⟨fun _ => Except.error "binascii.Error: Invalid base64-encoded string",
   fun _ => Except.ok ""⟩

/-- exampleAttachmentHttp is an attachment whose url is not a data URI. -/
def exampleAttachmentHttp : Value :=
  Value.dict [("name", Value.str "file.bin"), ("url", Value.str "https://example.com/file.bin")]

/-- exampleRepoInfo is a concrete publish result. -/
def exampleRepoInfo : App.RepoInfo :=
  ⟨"https://github.com/u/r", "deadbeef", "https://u.github.io/r/"⟩

theorem toList_append (a b : String) : (a ++ b).toList = a.toList ++ b.toList := by
  simp [String.toList]

theorem infixOf_refl (s : String) : InfixOf s s :=
  ⟨[], [], by simp⟩

theorem infixOf_trans {a b c : String} (h1 : InfixOf a b) (h2 : InfixOf b c) : InfixOf a c :=
  List.IsInfix.trans h1 h2

theorem infixOf_decomp (a s b : String) : InfixOf s (a ++ s ++ b) :=
  ⟨a.toList, b.toList, by simp [String.toList]⟩

theorem infixOf_append_left (u : String) {s t : String} (h : InfixOf s t) : InfixOf s (u ++ t) := by
  have h2 : t.toList <:+: (u ++ t).toList := by
    rw [toList_append]
    exact (List.suffix_append _ _).isInfix
  exact List.IsInfix.trans h h2

theorem infixOf_append_right (u : String) {s t : String} (h : InfixOf s t) : InfixOf s (t ++ u) := by
  have h2 : t.toList <:+: (t ++ u).toList := by
    rw [toList_append]
    exact (List.prefix_append _ _).isInfix
  exact List.IsInfix.trans h h2

theorem ne_empty_of_infix {s hay : String} (h : InfixOf s hay) (hs : s ≠ "") : hay ≠ "" := by
  intro he
  subst he
  rcases h with ⟨a, b, hab⟩
  have h0 : a ++ s.toList ++ b = ([] : List Char) := hab
  rcases List.append_eq_nil.mp h0 with ⟨h1, _⟩
  rcases List.append_eq_nil.mp h1 with ⟨_, h3⟩
  apply hs
  cases s with
  | mk d =>
    have hd : d = [] := h3
    rw [hd]

theorem infix_pyJoin (sep : String) : ∀ (l : List String) (x : String), x ∈ l → InfixOf x (pyJoin sep l)
  | [], x, hx => absurd hx (List.not_mem_nil x)
  | [y], x, hx => by
    have hxy : x = y := by simpa using hx
    subst hxy
    exact infixOf_refl x
  | y :: z :: rest, x, hx => by
    have hj : pyJoin sep (y :: z :: rest) = y ++ sep ++ pyJoin sep (z :: rest) := rfl
    rw [hj]
    rcases List.mem_cons.mp hx with h | h
    · subst h
      exact infixOf_append_right _ (infixOf_append_right _ (infixOf_refl x))
    · exact infixOf_append_left _ (infix_pyJoin sep (z :: rest) x h)

theorem decode_loop_eq_filterMap (std : CodeGenerator.Stdlib) :
    ∀ atts : List Value, CodeGenerator.decode_loop std atts = atts.filterMap (CodeGenerator.decode_attachment std)
  | [] => rfl
  | a :: rest => by
    rw [List.filterMap_cons]
    cases h : CodeGenerator.decode_attachment std a <;>
      simp [CodeGenerator.decode_loop, h, decode_loop_eq_filterMap std rest]

/-- C1: when the endpoint persistently returns a non-200 status, the
notification dispatcher makes exactly the five attempts 0..4 and no
more, sleeps between consecutive attempts for the durations 1, 2, 4, 8
seconds in order (the schedule RETRY_DELAYS indexed by attempt number,
whose first MAX_RETRIES - 1 entries are the gaps between the 5
attempts), and returns success=false with an error string carrying the
last status code and body. -/
theorem notify_persistent_non200 (code : Nat → Nat) (text : Nat → String)
    (h : ∀ i, i < Evaluator.MAX_RETRIES → code i ≠ 200) :
    Evaluator.notify_evaluation_api (fun i => Evaluator.CallOutcome.response (code i) (text i)) =
      ⟨[0, 1, 2, 3, 4], [1, 2, 4, 8],
        Evaluator.NotifyResult.failure
          ("Evaluation API returned status " ++ toString (code 4) ++ ": " ++ text 4)⟩
    ∧ [1, 2, 4, 8] = Evaluator.RETRY_DELAYS.take (Evaluator.MAX_RETRIES - 1) := by
  have h0 := h 0 (by decide)
  have h1 := h 1 (by decide)
  have h2 := h 2 (by decide)
  have h3 := h 3 (by decide)
  have h4 := h 4 (by decide)
  refine ⟨?_, by decide⟩
  simp [Evaluator.notify_evaluation_api, Evaluator.notifyAux, Evaluator.MAX_RETRIES,
    Evaluator.RETRY_DELAYS, h0, h1, h2, h3, h4]

/-- Witness for notify_persistent_non200 at the constant response with
status 500 and body oops. -/
theorem notify_persistent_non200_witness :
    Evaluator.notify_evaluation_api (fun _ => Evaluator.CallOutcome.response 500 "oops") =
      ⟨[0, 1, 2, 3, 4], [1, 2, 4, 8],
        Evaluator.NotifyResult.failure "Evaluation API returned status 500: oops"⟩ :=
  (notify_persistent_non200 (fun _ => 500) (fun _ => "oops")
    (fun i _ => by show (500 : Nat) ≠ 200; decide)).1

/-- C8: verify_secret returns false whenever the expected secret is not
configured (the empty string, which is also what an absent environment
variable yields), for every provided value including the empty string;
when an expected secret is configured it returns true exactly when the
provided value is that string. -/
theorem verify_secret_hard_deny :
    (∀ provided : Value, Validator.verify_secret provided "" = false)
    ∧ (∀ (provided : Value) (expected : String), expected ≠ "" →
        (Validator.verify_secret provided expected = true ↔ provided = Value.str expected)) := by
  constructor
  · intro provided
    simp [Validator.verify_secret]
  · intro provided expected hne
    cases provided <;> simp [Validator.verify_secret, hne]

/-- Witness for verify_secret_hard_deny: with no configured secret every
provided value is denied, including the empty and the matching one; a
configured secret accepts exactly itself. -/
theorem verify_secret_hard_deny_witness :
    Validator.verify_secret (Value.str "") "" = false
    ∧ Validator.verify_secret (Value.str "x") "" = false
    ∧ Validator.verify_secret (Value.str "k") "k" = true :=
  ⟨verify_secret_hard_deny.1 (Value.str ""),
   verify_secret_hard_deny.1 (Value.str "x"),
   (verify_secret_hard_deny.2 (Value.str "k") "k" (by decide)).mpr rfl⟩

/-- C9: a payload missing one or more required fields makes
validate_request return ok=false immediately, with a single reason
message determined only by the missing-field list, and that message
contains every missing field name. -/
theorem validate_missing_lists_all (payload : List (String × Value))
    (h : Validator.missingFields payload ≠ []) :
    Validator.validate_request payload =
      Except.ok (false, "Missing required fields: " ++ pyJoin ", " (Validator.missingFields payload))
    ∧ ∀ f ∈ Validator.required_fields, lookupKey f payload = Option.none →
        InfixOf f ("Missing required fields: " ++ pyJoin ", " (Validator.missingFields payload)) := by
  constructor
  · unfold Validator.validate_request
    simp [h]
  · intro f hf hnone
    have hmem : f ∈ Validator.missingFields payload := by
      unfold Validator.missingFields
      exact List.mem_filter.mpr ⟨hf, by simp [hnone]⟩
    exact infixOf_append_left _ (infix_pyJoin ", " _ f hmem)

/-- Witness for validate_missing_lists_all at a payload carrying only an
email field: the reason lists all six missing fields, and nonce occurs
in it. -/
theorem validate_missing_lists_all_witness :
    Validator.validate_request examplePayloadMissing =
      Except.ok (false, "Missing required fields: " ++ pyJoin ", " (Validator.missingFields examplePayloadMissing))
    ∧ InfixOf "nonce" ("Missing required fields: " ++ pyJoin ", " (Validator.missingFields examplePayloadMissing)) :=
  ⟨(validate_missing_lists_all examplePayloadMissing (by decide)).1,
   (validate_missing_lists_all examplePayloadMissing (by decide)).2 "nonce" (by decide) rfl⟩

/-- C2, counterexample: an artifact whose README.md member is the empty
string is pushed with an empty README.md — the publisher does not
substitute the generated default, because dict.get only falls back when
the key is absent. -/
theorem readme_empty_pushed_counterexample :
    GithubManager.readme_content [("index.html", "<p>x</p>"), ("README.md", "")]
      "build a clock" ["has title"] 2026 "2026-01-01 00:00:00" = "" := rfl

/-- C2, amended: the publisher substitutes the non-empty generated
default README, which embeds the brief and the checklist, only when the
artifact has no README.md member at all; a README.md member that is
present, even as the empty string, is pushed as is. -/
theorem readme_default_when_absent (app_code : List (String × String)) (brief : String)
    (checks : List String) (year : Int) (ts : String)
    (h : lookupKey "README.md" app_code = Option.none) :
    GithubManager.readme_content app_code brief checks year ts =
      GithubManager.generate_readme brief checks year ts
    ∧ GithubManager.generate_readme brief checks year ts ≠ ""
    ∧ InfixOf brief (GithubManager.generate_readme brief checks year ts)
    ∧ ∀ c ∈ checks, InfixOf c (GithubManager.generate_readme brief checks year ts) := by
  refine ⟨?_, ?_, ?_, ?_⟩
  · unfold GithubManager.readme_content
    rw [h]
    rfl
  · exact ne_empty_of_infix
      (infixOf_append_left _ (infixOf_refl " UTC*\n") :
        InfixOf " UTC*\n" (GithubManager.generate_readme brief checks year ts))
      (by decide)
  · unfold GithubManager.generate_readme
    exact infixOf_append_right _ (infixOf_append_right _ (infixOf_append_right _
      (infixOf_append_right _ (infixOf_append_right _ (infixOf_append_right _
        (infixOf_append_right _ (infixOf_append_left _ (infixOf_refl brief))))))))
  · intro c hc
    have htext : InfixOf c (GithubManager.checksText checks) := by
      unfold GithubManager.checksText
      have hne : checks.isEmpty = false := by
        cases checks with
        | nil => cases hc
        | cons a l => rfl
      simp only [hne, Bool.false_eq_true, if_false]
      have hmem : ("- " ++ c) ∈ checks.map (fun x => "- " ++ x) :=
        List.mem_map.mpr ⟨c, hc, rfl⟩
      have h1 : InfixOf c ("- " ++ c) := infixOf_append_left _ (infixOf_refl c)
      have h2 := infix_pyJoin "\n" (checks.map (fun x => "- " ++ x)) ("- " ++ c) hmem
      exact infixOf_trans h1 h2
    unfold GithubManager.generate_readme
    exact infixOf_append_right _ (infixOf_append_right _ (infixOf_append_right _
      (infixOf_append_right _ (infixOf_append_right _ (infixOf_append_left _ htext)))))

/-- Witness for readme_default_when_absent at an artifact with no
README.md member. -/
theorem readme_default_when_absent_witness :
    GithubManager.readme_content [("index.html", "<p>x</p>")] "build a clock" ["has title"] 2026 "ts" =
      GithubManager.generate_readme "build a clock" ["has title"] 2026 "ts"
    ∧ GithubManager.generate_readme "build a clock" ["has title"] 2026 "ts" ≠ ""
    ∧ InfixOf "build a clock" (GithubManager.generate_readme "build a clock" ["has title"] 2026 "ts")
    ∧ InfixOf "has title" (GithubManager.generate_readme "build a clock" ["has title"] 2026 "ts") := by
  have h := readme_default_when_absent [("index.html", "<p>x</p>")] "build a clock" ["has title"] 2026 "ts" rfl
  exact ⟨h.1, h.2.1, h.2.2.1, h.2.2.2 "has title" (by simp)⟩

/-- C3: the claim of idempotence fails on the code. Sanitizing the
101-character name of 99 letters, a hyphen and a letter truncates after
stripping, leaving a name that ends with a hyphen; sanitizing that
output again strips the hyphen and yields a different, 99-character
name. This contradicts the comment in the source that the name must not
end with a hyphen, so the truncation-after-strip order is a slip in the
code. -/
theorem sanitize_not_idempotent_on_long_name :
    (GithubManager.sanitize_repo_name "20260101-000000" longTaskName).toList.getLast? = Option.some '-'
    ∧ GithubManager.sanitize_repo_name "20260101-000000"
        (GithubManager.sanitize_repo_name "20260101-000000" longTaskName) ≠
      GithubManager.sanitize_repo_name "20260101-000000" longTaskName := by decide

/-- C4: the description sent to the repository-creation call is built
directly from the brief with no control-character stripping, so a brief
containing a newline produces a description containing that newline;
the sanitize_description function that test_control_chars_fix.py
imports does not exist in github_manager.py. -/
theorem repo_description_keeps_control_chars :
    GithubManager.repo_description "a\nb" = "Auto-generated application: a\nb"
    ∧ InfixOf "\n" (GithubManager.repo_description "a\nb") := by
  refine ⟨rfl, ?_⟩
  show ("\n").toList <:+: (GithubManager.repo_description "a\nb").toList
  decide

/-- emailCheck never raises on a string email: it returns a boolean
verdict. -/
theorem emailCheck_str_ok (s : String) : ∃ b, Validator.emailCheck (Value.str s) = Except.ok b := by
  show ∃ b,
    (if (!s.toList.contains '@') = true then (Except.ok false : Except String Bool)
      else Except.ok (((splitChar '@' s.toList).getLastD []).contains '.')) = Except.ok b
  split
  · exact ⟨_, rfl⟩
  · exact ⟨_, rfl⟩

/-- C5, counterexample: a payload whose required email field is the
integer 5 makes validate_request raise a TypeError (membership test on
an int), and the deploy endpoint maps that uncaught fault to a 500
response, not a 400-class one. -/
theorem validate_raises_on_int_email_counterexample :
    Validator.validate_request examplePayloadIntEmail =
      Except.error "TypeError: argument of type \x27int\x27 is not iterable"
    ∧ (App.deploy "s" (Option.some examplePayloadIntEmail)
        (Except.error "unreached") (fun _ => Evaluator.NotifyResult.success "")).status = 500 :=
  ⟨rfl, rfl⟩

/-- C5, amended: for every payload whose email field, when present, is a
string, validate_request returns an (ok, reason) pair without raising,
and any validation failure produces a 400 response from deploy; a
payload whose email is present with a non-string type instead makes
validate_request raise, which deploy surfaces as a 500 response. -/
theorem validate_total_when_email_string (payload : List (String × Value))
    (hemail : ∀ v, lookupKey "email" payload = Option.some v → ∃ s, v = Value.str s) :
    (∃ p, Validator.validate_request payload = Except.ok p)
    ∧ ∀ (r : String) (secret : String) (pub : Except String App.RepoInfo)
        (ntf : App.RepoInfo → Evaluator.NotifyResult),
        Validator.validate_request payload = Except.ok (false, r) →
        App.deploy secret (Option.some payload) pub ntf = ⟨400, [("error", r)]⟩ := by
  constructor
  · by_cases hm : (Validator.missingFields payload).isEmpty
    · have hnil : Validator.missingFields payload = [] := by simpa using hm
      have hpresent := (List.filter_eq_nil_iff.mp hnil) "email" (by decide)
      have hlookup : ∃ v, lookupKey "email" payload = Option.some v := by
        cases hl : lookupKey "email" payload with
        | none => exact absurd (by rw [hl]; rfl) hpresent
        | some v => exact ⟨v, rfl⟩
      obtain ⟨v, hl⟩ := hlookup
      obtain ⟨s, rfl⟩ := hemail v hl
      obtain ⟨b, hb⟩ := emailCheck_str_ok s
      unfold Validator.validate_request
      rw [if_neg (by simp [hm])]
      rw [hl]
      simp only [Option.getD_some]
      rw [hb]
      cases b
      · exact ⟨_, rfl⟩
      · exact ⟨_, rfl⟩
    · unfold Validator.validate_request
      rw [if_pos (by simpa using hm)]
      exact ⟨_, rfl⟩
  · intro r secret pub ntf hv
    simp [App.deploy, hv]

/-- Witness for validate_total_when_email_string at a payload whose email
is a string but whose round is zero: validation returns a pair and the
endpoint answers 400. -/
theorem validate_total_when_email_string_witness :
    (∃ p, Validator.validate_request exampleBadRound = Except.ok p)
    ∧ App.deploy "s" (Option.some exampleBadRound)
        (Except.error "unreached") (fun _ => Evaluator.NotifyResult.success "") =
      ⟨400, [("error", "Round must be a positive integer")]⟩ := by
  have h := validate_total_when_email_string exampleBadRound
    (fun v hv => ⟨"a@b.c", (Option.some.inj hv).symm⟩)
  exact ⟨h.1, h.2 "Round must be a positive integer" "s" (Except.error "unreached")
    (fun _ => Evaluator.NotifyResult.success "") rfl⟩

/-- C7: once a request validates and authenticates, a successful publish
followed by a failed notification yields HTTP 200 with explicit status
partial_success, still carrying the repository URL and the pages URL,
while a publishing failure yields a 500 server-error response. -/
theorem deploy_notify_failure_still_200 (secret : String) (payload : List (String × Value))
    (pub : Except String App.RepoInfo) (ntf : App.RepoInfo → Evaluator.NotifyResult)
    (hval : Validator.validate_request payload = Except.ok (true, ""))
    (hsec : Validator.verify_secret ((lookupKey "secret" payload).getD (Value.str "")) secret = true) :
    (∀ info err, pub = Except.ok info → ntf info = Evaluator.NotifyResult.failure err →
      App.deploy secret (Option.some payload) pub ntf =
        ⟨200, [("status", "partial_success"),
               ("message", "App deployed but evaluation notification failed"),
               ("repo_url", info.repo_url),
               ("pages_url", info.pages_url),
               ("error", err)]⟩)
    ∧ (∀ e, pub = Except.error e →
      App.deploy secret (Option.some payload) pub ntf =
        ⟨500, [("error", "Internal server error"), ("message", e)]⟩) := by
  constructor
  · intro info err hpub hntf
    simp [App.deploy, hval, hsec, hpub, hntf]
  · intro e hpub
    simp [App.deploy, hval, hsec, hpub]

/-- Witness for deploy_notify_failure_still_200 at the fully valid
example payload with a successful publish and a failing notification,
and at the same payload with a failing publish. -/
theorem deploy_notify_failure_still_200_witness :
    App.deploy "s" (Option.some examplePayload)
      (Except.ok exampleRepoInfo) (fun _ => Evaluator.NotifyResult.failure "boom") =
      ⟨200, [("status", "partial_success"),
             ("message", "App deployed but evaluation notification failed"),
             ("repo_url", exampleRepoInfo.repo_url),
             ("pages_url", exampleRepoInfo.pages_url),
             ("error", "boom")]⟩
    ∧ App.deploy "s" (Option.some examplePayload)
        (Except.error "GITHUB_TOKEN not configured") (fun _ => Evaluator.NotifyResult.failure "boom") =
      ⟨500, [("error", "Internal server error"), ("message", "GITHUB_TOKEN not configured")]⟩ :=
  ⟨(deploy_notify_failure_still_200 "s" examplePayload
      (Except.ok exampleRepoInfo) (fun _ => Evaluator.NotifyResult.failure "boom")
      rfl (by decide)).1 exampleRepoInfo "boom" rfl rfl,
   (deploy_notify_failure_still_200 "s" examplePayload
      (Except.error "GITHUB_TOKEN not configured") (fun _ => Evaluator.NotifyResult.failure "boom")
      rfl (by decide)).2 "GITHUB_TOKEN not configured" rfl⟩

/-- C6: when no generation backend is configured, or the chosen backend
raises any error, generate_app_code returns the deterministic template
artifact instead of propagating the error: a non-empty index.html
embedding the brief plus a README embedding the brief and every entry
of the checklist. -/
theorem generate_never_fails_outward (cfg : CodeGenerator.ApiConfig)
    (backendResult : CodeGenerator.Backend → Except String (List (String × String)))
    (std : CodeGenerator.Stdlib) (brief : String) (checks : List String) (attachments : List Value)
    (h : CodeGenerator.chosen_backend cfg = Option.none
       ∨ ∃ b e, CodeGenerator.chosen_backend cfg = Option.some b ∧ backendResult b = Except.error e) :
    CodeGenerator.generate_app_code cfg backendResult std brief checks attachments =
      CodeGenerator.generate_template_code brief checks (CodeGenerator.decode_loop std attachments)
    ∧ lookupKey "index.html" (CodeGenerator.generate_app_code cfg backendResult std brief checks attachments) =
        Option.some (CodeGenerator.html_template brief)
    ∧ CodeGenerator.html_template brief ≠ ""
    ∧ InfixOf brief (CodeGenerator.html_template brief)
    ∧ lookupKey "README.md" (CodeGenerator.generate_app_code cfg backendResult std brief checks attachments) =
        Option.some (CodeGenerator.readme_template brief checks)
    ∧ CodeGenerator.readme_template brief checks ≠ ""
    ∧ InfixOf brief (CodeGenerator.readme_template brief checks)
    ∧ ∀ c ∈ checks, InfixOf c (CodeGenerator.readme_template brief checks) := by
  have heq : CodeGenerator.generate_app_code cfg backendResult std brief checks attachments =
      CodeGenerator.generate_template_code brief checks (CodeGenerator.decode_loop std attachments) := by
    rcases h with h | ⟨b, e, hb, he⟩
    · unfold CodeGenerator.generate_app_code
      rw [h]
    · simp [CodeGenerator.generate_app_code, hb, he]
  refine ⟨heq, ?_, ?_, ?_, ?_, ?_, ?_, ?_⟩
  · rw [heq]; rfl
  · exact ne_empty_of_infix
      (infixOf_append_left _ (infixOf_refl _) : InfixOf _ (CodeGenerator.html_template brief))
      (by decide)
  · unfold CodeGenerator.html_template
    exact infixOf_append_right _ (infixOf_append_left _ (infixOf_refl brief))
  · rw [heq]; rfl
  · exact ne_empty_of_infix
      (infixOf_append_left _ (infixOf_refl _) : InfixOf _ (CodeGenerator.readme_template brief checks))
      (by decide)
  · unfold CodeGenerator.readme_template
    exact infixOf_append_right _ (infixOf_append_right _ (infixOf_append_right _
      (infixOf_append_left _ (infixOf_refl brief))))
  · intro c hc
    have htext : InfixOf c (CodeGenerator.requirementsText checks) := by
      unfold CodeGenerator.requirementsText
      have hne : checks.isEmpty = false := by
        cases checks with
        | nil => cases hc
        | cons a l => rfl
      simp only [hne, Bool.false_eq_true, if_false]
      have hmem : ("- " ++ c) ∈ checks.map (fun x => "- " ++ x) :=
        List.mem_map.mpr ⟨c, hc, rfl⟩
      exact infixOf_trans (infixOf_append_left _ (infixOf_refl c))
        (infix_pyJoin "\n" (checks.map (fun x => "- " ++ x)) ("- " ++ c) hmem)
    unfold CodeGenerator.readme_template
    exact infixOf_append_right _ (infixOf_append_left _ htext)

/-- Witness for generate_never_fails_outward with no backend configured,
the brief digital clock and the single check has title. -/
theorem generate_never_fails_outward_witness :
    CodeGenerator.generate_app_code ⟨"", "", ""⟩ (fun _ => Except.error "x") exampleStdlibFail
      "digital clock" ["has title"] [] =
      CodeGenerator.generate_template_code "digital clock" ["has title"] []
    ∧ CodeGenerator.html_template "digital clock" ≠ ""
    ∧ InfixOf "digital clock" (CodeGenerator.html_template "digital clock")
    ∧ InfixOf "has title" (CodeGenerator.readme_template "digital clock" ["has title"]) := by
  have h := generate_never_fails_outward ⟨"", "", ""⟩ (fun _ => Except.error "x")
    exampleStdlibFail "digital clock" ["has title"] [] (Or.inl rfl)
  exact ⟨h.1, h.2.2.1, h.2.2.2.1, h.2.2.2.2.2.2.2 "has title" (by simp)⟩

/-- C10: an attachment whose url value is a string that is not a data
URI, and an attachment whose base64 payload fails to decode, are both
turned into None by decode_attachment without raising, and the decode
loop of generate_app_code keeps exactly the successfully decoded
attachments (it is the filterMap of decode_attachment), so such
attachments are silently dropped and never abort generation. -/
theorem decode_attachment_drops (std : CodeGenerator.Stdlib) (atts : List Value) (att : Value)
    (h : (∃ kvs url, att = Value.dict kvs
            ∧ lookupKey "url" kvs = Option.some (Value.str url)
            ∧ pyStartsWith "data:" url = false)
       ∨ (∃ kvs url hdr enc e, att = Value.dict kvs
            ∧ lookupKey "url" kvs = Option.some (Value.str url)
            ∧ pyStartsWith "data:" url = true
            ∧ CodeGenerator.splitFirst ',' url.toList = Option.some (hdr, enc)
            ∧ std.b64decode (String.mk enc) = Except.error e)) :
    CodeGenerator.decode_attachment std att = Option.none
    ∧ CodeGenerator.decode_loop std atts = atts.filterMap (CodeGenerator.decode_attachment std) := by
  refine ⟨?_, decode_loop_eq_filterMap std atts⟩
  rcases h with ⟨kvs, url, rfl, hurl, hstart⟩ | ⟨kvs, url, hdr, enc, e, rfl, hurl, hstart, hsplit, hb64⟩
  · simp [CodeGenerator.decode_attachment, hurl, hstart]
  · simp only [String.toList] at hsplit
    simp [CodeGenerator.decode_attachment, hurl, hstart, hsplit, hb64]

/-- Witness for decode_attachment_drops at an attachment whose url is an
https URL rather than a data URI. -/
theorem decode_attachment_drops_witness :
    CodeGenerator.decode_attachment exampleStdlibFail exampleAttachmentHttp = Option.none
    ∧ CodeGenerator.decode_loop exampleStdlibFail [exampleAttachmentHttp] =
        [exampleAttachmentHttp].filterMap (CodeGenerator.decode_attachment exampleStdlibFail) :=
  decode_attachment_drops exampleStdlibFail [exampleAttachmentHttp] exampleAttachmentHttp
    (Or.inl ⟨[("name", Value.str "file.bin"), ("url", Value.str "https://example.com/file.bin")],
      "https://example.com/file.bin", rfl, rfl, rfl⟩)

end Deploy
